import Mathlib

/-!
Shallow embedding of `bot_cupons_final.py`, `verificar_variaveis.py` and
`verificar_variaveis_env.py` from the `bot-cupons-telegram` repository.

Python strings that may be `None` are modelled as `Option String`; Python
truthiness on such a value (`if not x`) is `falsy`.  Network and Telegram
I/O is modelled by explicit inputs: the parsed HTML of each source is a
list of candidate tag records, the outcome of an HTTP fetch is an
`Except FetchErr soup`, and the outcome of a Telegram send is an oracle
`Produto → Bool`.  `urllib.parse.urljoin` is a stdlib function and is
passed in as an abstract parameter `uj`.
-/

/-- Python truthiness test `not x` for a value that is `None` or a string:
true exactly on `None` and the empty string. -/
def falsy : Option String → Bool
  | none => true
  | some s => s.isEmpty

/-- `charsStartWith pat hay` is true iff `pat` is an initial segment of `hay`. -/
def charsStartWith : List Char → List Char → Bool
  | [], _ => true
  | _ :: _, [] => false
  | p :: ps, h :: hs => p = h && charsStartWith ps hs

/-- `charsContain hay pat` is true iff `pat` occurs contiguously inside `hay`. -/
def charsContain : List Char → List Char → Bool
  | [], pat => pat.isEmpty
  | hd :: rest, pat => charsStartWith pat (hd :: rest) || charsContain rest pat

/-- The Python substring test `pat in hay`. -/
def containsSub (hay pat : String) : Bool :=
  charsContain hay.toList pat.toList

/-- Python `str.lower()` (kernel-reducible model of `String.toLower`). -/
def strLower (s : String) : String :=
  ⟨s.data.map Char.toLower⟩

/-- Python `str.startswith(p)`. -/
def strStartsWith (s p : String) : Bool :=
  charsStartWith p.data s.data

/-- Python `str.strip()`: drop whitespace from both ends. -/
def strTrim (s : String) : String :=
  ⟨((s.data.dropWhile Char.isWhitespace).reverse.dropWhile Char.isWhitespace).reverse⟩

/-- Worker for `strSplitOn`; the fuel is an upper bound on the number of
steps (one unit per step, each step consuming at least one character),
so with fuel `hay.length` the fuel-exhausted branch is unreachable. -/
def splitFuel (sep : List Char) : Nat → List Char → List Char → List (List Char)
  | _, acc, [] => [acc.reverse]
  | 0, acc, rest => [acc.reverse ++ rest]
  | fuel + 1, acc, c :: rest =>
    if charsStartWith sep (c :: rest) then
      acc.reverse :: splitFuel sep fuel [] (rest.drop (sep.length - 1))
    else
      splitFuel sep fuel (c :: acc) rest

/-- Python `str.split(sep)` for a non-empty separator: maximal split on
every non-overlapping occurrence of `sep`, keeping empty pieces. -/
def strSplitOn (s sep : String) : List String :=
  (splitFuel sep.data s.data.length [] s.data).map (fun l => ⟨l⟩)

/-- Configuration loaded from the environment at module top level
(bot_cupons_final.py lines 38-48).  `SHOPEE_AFILIADO_ID` and
`ML_AFILIADO_ID` are optional (`required=False`), so they may be `none`. -/
structure Config where
  amazonId : Option String
  shopeeId : Option String
  mlId : Option String
  maxCacheSize : Nat
  horarioInicio : Int
  horarioFim : Int
deriving DecidableEq, Repr

/-- `identificar_origem(link)`: identifies the store from the link
(bot_cupons_final.py lines 124-133). -/
def identificar_origem (link : Option String) : String :=
  if falsy link then "Desconhecida"
  else
    let link_lower := strLower (link.getD "")
    if containsSub link_lower "shopee.com" then "Shopee"
    else if containsSub link_lower "mercadolivre.com" then "Mercado Livre"
    else if containsSub link_lower "amazon.com" then "Amazon"
    else "Outra"

/-- `converter_link_afiliado(link_original, origem)` (bot_cupons_final.py
lines 77-122).  The `try` body only builds strings, so the `except`
branch is unreachable; the "Mercado Livre" branch and the final `else`
both return the original link. -/
def converter_link_afiliado (cfg : Config) (link_original : Option String)
    (origem : String) : Option String :=
  if falsy link_original then none
  else
    let l := link_original.getD ""
    if origem = "Amazon" then
      if falsy cfg.amazonId then some l
      else if containsSub l "tag=" then some l
      else
        let separador := if containsSub l "?" then "&" else "?"
        some (l ++ separador ++ "tag=" ++ cfg.amazonId.getD "")
    else if origem = "Shopee" then
      if falsy cfg.shopeeId then some l
      else
        let separador := if containsSub l "?" then "&" else "?"
        some (l ++ separador ++ "af_sub_siteid=" ++ cfg.shopeeId.getD "")
    else if origem = "Mercado Livre" then
      some l
    else
      some l

/-- A product dictionary as built by the extraction functions
(bot_cupons_final.py lines 187-195 and 262-270). -/
structure Produto where
  nome : String
  imagem : Option String
  link : String
  preco_original : String
  preco_desconto : String
  origem : String
  link_original : String
deriving DecidableEq, Repr

/-- The `h4` element selected inside an offer link of
divulgadorinteligente, with its stripped text (`get_text(strip=True)`,
line 152), raw text (`get_text()`, line 163), and the stripped texts of
its `h4 > span` and `h4 > s` children when present. -/
structure DivH4 where
  textStrip : String
  text : String
  spanText : Option String
  sText : Option String
deriving DecidableEq, Repr

/-- One candidate offer link (selector `a[href*=amazon.com.br]`) of
divulgadorinteligente: its `href` attribute, its `h4` child, and the
resolved `src`/`data-src` of its `img` child (`none` when the tag or a
truthy src is absent, per the Python `or` chain on lines 170-175). -/
structure DivTag where
  href : Option String
  h4 : Option DivH4
  imgSrc : Option String
deriving DecidableEq, Repr

/-- The body of the `for link_tag in offer_links` loop of
`extrair_dados_divulgadorinteligente` (bot_cupons_final.py lines
145-197); `continue` becomes `none`. -/
def process_div_tag (cfg : Config) (cache : List String)
    (uj : String → String → String) (base_url : String) (t : DivTag) :
    Option Produto :=
  if falsy t.href then none
  else
    let link_original := t.href.getD ""
    let nome_base := match t.h4 with
      | some h => h.textStrip
      | none => "Produto sem nome"
    let nome_produto := strTrim ((strSplitOn nome_base "R$").headD "")
    let preco_desconto0 := match t.h4 with
      | some h => h.spanText.getD "N/D"
      | none => "N/D"
    let preco_original0 := match t.h4 with
      | some h => h.sText.getD "N/D"
      | none => "N/D"
    let precos :=
      if preco_original0 = "N/D" then
        match t.h4 with
        | some h =>
          if containsSub h.text "R$" ∧ 2 < (strSplitOn h.text "R$").length then
            ("R$" ++ strTrim ((strSplitOn h.text "R$").getD 1 ""),
             "R$" ++ strTrim ((strSplitOn h.text "R$").getD 2 ""))
          else (preco_original0, preco_desconto0)
        | none => (preco_original0, preco_desconto0)
      else (preco_original0, preco_desconto0)
    let imagem_url := t.imgSrc.map (fun s => uj base_url s)
    let origem := identificar_origem (some link_original)
    let link_afiliado := converter_link_afiliado cfg (some link_original) origem
    if falsy link_afiliado then none
    else
      let la := link_afiliado.getD ""
      if la ∈ cache then none
      else some {
        nome := nome_produto,
        imagem := imagem_url,
        link := la,
        preco_original := precos.1,
        preco_desconto := precos.2,
        origem := origem,
        link_original := link_original }

/-- `extrair_dados_divulgadorinteligente(soup, base_url)`
(bot_cupons_final.py lines 135-199), with the CSS selection already
performed: the soup is given as the list of candidate offer links. -/
def extrair_dados_divulgadorinteligente (cfg : Config) (cache : List String)
    (uj : String → String → String) (base_url : String)
    (offer_links : List DivTag) : List Produto :=
  offer_links.filterMap (process_div_tag cfg cache uj base_url)

/-- One candidate offer card of promohub: `linkTag` is the selected link
element (`none` when absent) carrying its `href` attribute, plus the
stripped texts of the title, price, and original-price elements, and the
resolved image src as for `DivTag`. -/
structure PromoCard where
  linkTag : Option (Option String)
  titleText : Option String
  priceText : Option String
  origText : Option String
  imgSrc : Option String
deriving DecidableEq, Repr

/-- The body of the `for card in offer_cards` loop of
`extrair_dados_promohub` (bot_cupons_final.py lines 213-272);
`continue` becomes `none`. -/
def process_promo_card (cfg : Config) (cache : List String)
    (uj : String → String → String) (base_url : String) (c : PromoCard) :
    Option Produto :=
  match c.linkTag with
  | none => none
  | some href =>
    if falsy href then none
    else
      let l0 := href.getD ""
      let link_original := if strStartsWith l0 "/" then uj base_url l0 else l0
      let nome_produto := c.titleText.getD "Produto sem nome"
      let pd0 := c.priceText.getD "N/D"
      let pd1 := strTrim ((strSplitOn pd0 "R$").getLastD "")
      let preco_desconto :=
        if pd1 ≠ "" ∧ ¬ strStartsWith pd1 "R$" then "R$ " ++ pd1 else pd1
      let preco_original := c.origText.getD "N/D"
      let imagem_url := c.imgSrc.map (fun s => uj base_url s)
      let origem := identificar_origem (some link_original)
      let link_afiliado := converter_link_afiliado cfg (some link_original) origem
      if falsy link_afiliado then none
      else
        let la := link_afiliado.getD ""
        if la ∈ cache then none
        else some {
          nome := nome_produto,
          imagem := imagem_url,
          link := la,
          preco_original := preco_original,
          preco_desconto := preco_desconto,
          origem := origem,
          link_original := link_original }

/-- `extrair_dados_promohub(soup, base_url)` (bot_cupons_final.py lines
201-274), with the CSS selection already performed. -/
def extrair_dados_promohub (cfg : Config) (cache : List String)
    (uj : String → String → String) (base_url : String)
    (offer_cards : List PromoCard) : List Produto :=
  offer_cards.filterMap (process_promo_card cfg cache uj base_url)

/-- URL of the divulgadorinteligente source (URLS_FONTE, line 67). -/
def URL_DIVULGADOR : String := "https://www.divulgadorinteligente.com/pachecoofertas"

/-- URL of the promohub source (URLS_FONTE, line 68). -/
def URL_PROMOHUB : String := "https://promohub.com.br"

/-- The exception classes caught per source in `buscar_produtos`
(bot_cupons_final.py lines 301-306). -/
inductive FetchErr where
  | timeout
  | requestError
  | otherError
deriving DecidableEq, Repr

/-- Outcome of `requests.get` + parsing for each entry of URLS_FONTE:
either an exception or the parsed soup, given as the candidate tag list
the extraction function selects. -/
structure FetchOutcomes where
  divulgador : Except FetchErr (List DivTag)
  promohub : Except FetchErr (List PromoCard)

/-- `buscar_produtos()` (bot_cupons_final.py lines 277-313): iterates
over URLS_FONTE in dict order, a source that raises contributes nothing
(its exception is caught and logged), and the collected offers are
filtered once more against ENVIADOS_CACHE (line 310). -/
def buscar_produtos (cfg : Config) (cache : List String)
    (uj : String → String → String) (oc : FetchOutcomes) : List Produto :=
  let produtos_div := match oc.divulgador with
    | Except.ok soup => extrair_dados_divulgadorinteligente cfg cache uj URL_DIVULGADOR soup
    | Except.error _ => []
  let produtos_promo := match oc.promohub with
    | Except.ok soup => extrair_dados_promohub cfg cache uj URL_PROMOHUB soup
    | Except.error _ => []
  let produtos_encontrados_total := produtos_div ++ produtos_promo
  produtos_encontrados_total.filter (fun p => decide (p.link ∉ cache))

/-- `ENVIADOS_CACHE.add(link)` (bot_cupons_final.py line 401): the set
after the add holds exactly the old elements plus `link`.  This has pure
set semantics and is independent of any iteration order. -/
def cache_add (cache : List String) (link : String) : List String :=
  if link ∈ cache then cache else cache ++ [link]

/-- The add-then-trim block run after a successful send
(bot_cupons_final.py lines 401-407): `ENVIADOS_CACHE.add(link)`, then if
the size exceeds MAX_CACHE_SIZE keep only the last MAX_CACHE_SIZE
elements of `list(ENVIADOS_CACHE)`.  The set is modelled as a
duplicate-free list; `list(ENVIADOS_CACHE)` is modelled in insertion
order, which is one fixed determinization of the CPython set iteration
order.  That order is in reality arbitrary (hash order), so which
elements the trim keeps — in particular whether the link just added
survives it — is a property of this determinization, not of the
program; only order-independent facts (the size bound, that the trim
removes elements and never introduces one) are claimed of the trim. -/
def add_then_trim (maxSize : Nat) (cache : List String) (link : String) :
    List String :=
  let c := cache_add cache link
  if maxSize < c.length then c.drop (c.length - maxSize) else c

/-- The `for produto in novos_produtos` send loop of
`verificar_e_enviar_ofertas` (bot_cupons_final.py lines 397-412).
`sendOk` is the outcome of `enviar_produto_telegram` (lines 316-375):
`true` iff the coroutine returned `True`.  Returns the final cache and
the affiliate links successfully sent, in send order. -/
def enviar_loop (maxSize : Nat) (sendOk : Produto → Bool) :
    List Produto → List String → List String × List String
  | [], cache => (cache, [])
  | p :: rest, cache =>
    if sendOk p then
      let r := enviar_loop maxSize sendOk rest (add_then_trim maxSize cache p.link)
      (r.1, p.link :: r.2)
    else
      enviar_loop maxSize sendOk rest cache

/-- Observable result of one `verificar_e_enviar_ofertas()` run:
the cache afterwards, the links successfully sent, and whether
`buscar_produtos` was reached (i.e. any source was fetched). -/
structure RunResult where
  cache : List String
  enviados : List String
  buscou : Bool
deriving DecidableEq, Repr

/-- `verificar_e_enviar_ofertas()` (bot_cupons_final.py lines 377-414):
return immediately when the current hour is outside
`[HORARIO_INICIO_ENVIO, HORARIO_FIM_ENVIO)`, otherwise fetch, and if any
new offers were found run the send loop. -/
def verificar_e_enviar_ofertas (cfg : Config) (hour : Int)
    (oc : FetchOutcomes) (uj : String → String → String)
    (sendOk : Produto → Bool) (cache : List String) : RunResult :=
  if ¬ (cfg.horarioInicio ≤ hour ∧ hour < cfg.horarioFim) then
    { cache := cache, enviados := [], buscou := false }
  else
    let novos_produtos := buscar_produtos cfg cache uj oc
    if novos_produtos.isEmpty then
      { cache := cache, enviados := [], buscou := true }
    else
      let r := enviar_loop cfg.maxCacheSize sendOk novos_produtos cache
      { cache := r.1, enviados := r.2, buscou := true }

/-- `os.getenv(var_name, default)`: the environment is a partial map
from names to values; an unset name yields the default. -/
def os_getenv (env : String → Option String) (var_name : String)
    (default : Option String) : Option String :=
  match env var_name with
  | some v => some v
  | none => default

/-- `get_env_variable(var_name, default=None, required=True)`
(bot_cupons_final.py lines 27-35): raises ValueError when the looked-up
value is `None` and the variable is required, otherwise returns it. -/
def get_env_variable (env : String → Option String) (var_name : String)
    (default : Option String) (required : Bool) :
    Except String (Option String) :=
  let value := os_getenv env var_name default
  if required ∧ value = none then
    Except.error ("Variável de ambiente obrigatória " ++ var_name ++ " não definida.")
  else
    Except.ok value

/-- `get_env_var(name)` (verificar_variaveis.py lines 3-7): no default
and always required. -/
def get_env_var (env : String → Option String) (name : String) :
    Except String String :=
  match env name with
  | none => Except.error ("❌ Variável de ambiente obrigatória " ++ name ++ " não está definida.")
  | some v => Except.ok v

/-- The list `variaveis` of verificar_variaveis_env.py (lines 4-9). -/
def variaveis : List String :=
  ["TELEGRAM_TOKEN", "GROUP_ID", "SHOPEE_PARTNER_ID", "SHOPEE_PARTNER_KEY"]

/-- The per-variable test of verificar_variaveis_env.py line 16
(`if valor:`): Python truthiness, so an unset variable and a variable
set to the empty string both fail. -/
def truthyEnv (env : String → Option String) (var : String) : Bool :=
  match env var with
  | some s => ¬ s.isEmpty
  | none => false

/-- The module-level check of verificar_variaveis_env.py (lines 13-26):
exit status 1 when any listed variable fails the truthiness test,
otherwise 0. -/
def verificar_env_exit (env : String → Option String) : Nat :=
  if variaveis.any (fun v => ! truthyEnv env v) then 1 else 0

/-- A flat JSON value: enough of JSON to serialize a set of links. -/
inductive Json where
  | str : String → Json
  | arr : List Json → Json

/-- Modelled from the spec: the source under src/ imports `json`
(bot_cupons_final.py line 5) but contains no dump call; the spec
phrase "optional flat JSON dump of a set" is modelled as serializing
ENVIADOS_CACHE to a flat JSON array of strings. -/
def salvar_cache_json (cache : List String) : Json :=
  Json.arr (cache.map Json.str)

/-- Modelled from the spec: reading the flat JSON dump back into the
sent-offers set after a restart. -/
def carregar_lista : List Json → Option (List String)
  | [] => some []
  | Json.str s :: rest => (carregar_lista rest).map (fun l => s :: l)
  | Json.arr _ :: _ => none

/-- Modelled from the spec: deserializing the cache dump; fails on
anything that is not a flat array of strings. -/
def carregar_cache_json : Json → Option (List String)
  | Json.arr js => carregar_lista js
  | Json.str _ => none

/-- A concrete `urljoin` stand-in used for concrete runs: resolution of a
relative URL never happens in these scenarios, so the identity on the
relative part suffices. -/
def uj0 : String → String → String := fun _ r => r

/-- A concrete configuration with the default Amazon affiliate id, a
send window covering the whole day and MAX_CACHE_SIZE = 1. -/
def cfg0 : Config :=
  { amazonId := some "maxx0448-20", shopeeId := none, mlId := none,
    maxCacheSize := 1, horarioInicio := 0, horarioFim := 24 }

/-- A concrete divulgadorinteligente offer link for product a. -/
def tagA : DivTag := { href := some "https://amazon.com.br/a", h4 := none, imgSrc := none }

/-- A concrete divulgadorinteligente offer link for product b. -/
def tagB : DivTag := { href := some "https://amazon.com.br/b", h4 := none, imgSrc := none }

/-- Fetch outcome in which divulgadorinteligente lists offers a and b. -/
def oc1 : FetchOutcomes :=
  { divulgador := Except.ok [tagA, tagB], promohub := Except.ok [] }

/-- Fetch outcome in which divulgadorinteligente lists only offer a. -/
def oc2 : FetchOutcomes :=
  { divulgador := Except.ok [tagA], promohub := Except.ok [] }

/-- The affiliate link the bot builds for offer a. -/
def linkA : String := "https://amazon.com.br/a?tag=maxx0448-20"

/-- The product the extraction pipeline builds for `tagA` (offer a). -/
def prodA : Produto :=
  { nome := "Produto sem nome", imagem := none, link := linkA,
    preco_original := "N/D", preco_desconto := "N/D", origem := "Amazon",
    link_original := "https://amazon.com.br/a" }

/-- A concrete environment in which every checked variable is set but
TELEGRAM_TOKEN is set to the empty string. -/
def env0 : String → Option String := fun v =>
  if v = "TELEGRAM_TOKEN" then some ""
  else if v = "GROUP_ID" then some "123456"
  else if v = "SHOPEE_PARTNER_ID" then some "partner"
  else if v = "SHOPEE_PARTNER_KEY" then some "key"
  else none

/-- A concrete environment in which every variable is unset. -/
def envEmpty : String → Option String := fun _ => none

/-- A concrete product record used to instantiate per-product lemmas. -/
def prod0 : Produto :=
  { nome := "Produto exemplo", imagem := none, link := "https://amazon.com.br/p?tag=maxx0448-20",
    preco_original := "N/D", preco_desconto := "N/D", origem := "Amazon",
    link_original := "https://amazon.com.br/p" }

/-! ## Helper lemmas -/

theorem trim_length (m : Nat) (c : List String) :
    (if m < c.length then c.drop (c.length - m) else c).length ≤ m := by
  split
  · simp only [List.length_drop]
    omega
  · omega

theorem add_then_trim_length (m : Nat) (cache : List String) (link : String) :
    (add_then_trim m cache link).length ≤ m := by
  unfold add_then_trim
  exact trim_length m (cache_add cache link)

theorem mem_cache_add (cache : List String) (link l : String) :
    l ∈ cache_add cache link ↔ l ∈ cache ∨ l = link := by
  unfold cache_add
  split
  · rename_i hmem
    constructor
    · exact Or.inl
    · rintro (h | rfl)
      · exact h
      · exact hmem
  · simp

theorem mem_add_then_trim (m : Nat) (cache : List String) (link l : String)
    (h : l ∈ add_then_trim m cache link) : l ∈ cache ∨ l = link := by
  unfold add_then_trim cache_add at h
  by_cases hmem : link ∈ cache
  · rw [if_pos hmem] at h
    dsimp only at h
    split at h
    · exact Or.inl (List.mem_of_mem_drop h)
    · exact Or.inl h
  · rw [if_neg hmem] at h
    dsimp only at h
    split at h
    · have h2 := List.mem_of_mem_drop h
      simpa using h2
    · simpa using h

theorem enviar_loop_all_fail (m : Nat) (sendOk : Produto → Bool)
    (ps : List Produto) (cache : List String)
    (h : ∀ p ∈ ps, sendOk p = false) :
    enviar_loop m sendOk ps cache = (cache, []) := by
  induction ps generalizing cache with
  | nil => rfl
  | cons p rest ih =>
    unfold enviar_loop
    rw [if_neg (by simp [h p (by simp)])]
    exact ih cache (fun q hq => h q (by simp [hq]))

theorem enviar_loop_sent_mem (m : Nat) (sendOk : Produto → Bool)
    (ps : List Produto) (cache : List String) (l : String)
    (h : l ∈ (enviar_loop m sendOk ps cache).2) :
    ∃ p, p ∈ ps ∧ p.link = l ∧ sendOk p = true := by
  induction ps generalizing cache with
  | nil => simp [enviar_loop] at h
  | cons p rest ih =>
    unfold enviar_loop at h
    by_cases hs : sendOk p
    · rw [if_pos hs] at h
      simp only [List.mem_cons] at h
      rcases h with h | h
      · exact ⟨p, by simp, h.symm, hs⟩
      · obtain ⟨q, hq, hql, hqs⟩ := ih _ h
        exact ⟨q, by simp [hq], hql, hqs⟩
    · rw [if_neg hs] at h
      obtain ⟨q, hq, hql, hqs⟩ := ih _ h
      exact ⟨q, by simp [hq], hql, hqs⟩

theorem enviar_loop_cache_length (m : Nat) (sendOk : Produto → Bool)
    (ps : List Produto) (cache : List String) (h : cache.length ≤ m) :
    ((enviar_loop m sendOk ps cache).1).length ≤ m := by
  induction ps generalizing cache with
  | nil => simpa [enviar_loop]
  | cons p rest ih =>
    unfold enviar_loop
    by_cases hs : sendOk p
    · rw [if_pos hs]
      exact ih _ (add_then_trim_length m cache p.link)
    · rw [if_neg hs]
      exact ih _ h

theorem process_div_tag_link_not_cached (cfg : Config) (cache : List String)
    (uj : String → String → String) (base_url : String) (t : DivTag) (p : Produto)
    (h : process_div_tag cfg cache uj base_url t = some p) : p.link ∉ cache := by
  unfold process_div_tag at h
  dsimp only at h
  simp only [Option.ite_none_left_eq_some, Option.some.injEq] at h
  obtain ⟨-, -, hc, rfl⟩ := h
  exact hc

theorem process_promo_card_link_not_cached (cfg : Config) (cache : List String)
    (uj : String → String → String) (base_url : String) (c : PromoCard) (p : Produto)
    (h : process_promo_card cfg cache uj base_url c = some p) : p.link ∉ cache := by
  unfold process_promo_card at h
  split at h
  · exact absurd h (by simp)
  · dsimp only at h
    simp only [Option.ite_none_left_eq_some, Option.some.injEq] at h
    obtain ⟨-, -, hc, rfl⟩ := h
    exact hc

theorem extrair_div_link_not_cached (cfg : Config) (cache : List String)
    (uj : String → String → String) (base_url : String) (tags : List DivTag)
    (p : Produto) (h : p ∈ extrair_dados_divulgadorinteligente cfg cache uj base_url tags) :
    p.link ∉ cache := by
  unfold extrair_dados_divulgadorinteligente at h
  rw [List.mem_filterMap] at h
  obtain ⟨t, _, ht⟩ := h
  exact process_div_tag_link_not_cached cfg cache uj base_url t p ht

theorem extrair_promo_link_not_cached (cfg : Config) (cache : List String)
    (uj : String → String → String) (base_url : String) (cards : List PromoCard)
    (p : Produto) (h : p ∈ extrair_dados_promohub cfg cache uj base_url cards) :
    p.link ∉ cache := by
  unfold extrair_dados_promohub at h
  rw [List.mem_filterMap] at h
  obtain ⟨c, _, hc⟩ := h
  exact process_promo_card_link_not_cached cfg cache uj base_url c p hc

theorem buscar_link_not_cached (cfg : Config) (cache : List String)
    (uj : String → String → String) (oc : FetchOutcomes) (p : Produto)
    (h : p ∈ buscar_produtos cfg cache uj oc) : p.link ∉ cache := by
  unfold buscar_produtos at h
  dsimp only at h
  rw [List.mem_filter] at h
  simpa using h.2

theorem verificar_enviados_not_cached (cfg : Config) (hour : Int)
    (oc : FetchOutcomes) (uj : String → String → String) (sendOk : Produto → Bool)
    (cache : List String) (l : String)
    (h : l ∈ (verificar_e_enviar_ofertas cfg hour oc uj sendOk cache).enviados) :
    l ∉ cache := by
  unfold verificar_e_enviar_ofertas at h
  split at h
  · simp at h
  · dsimp only at h
    split at h
    · simp at h
    · obtain ⟨p, hp, hpl, _⟩ := enviar_loop_sent_mem _ _ _ _ _ h
      rw [← hpl]
      exact buscar_link_not_cached cfg cache uj oc p hp

/-! ## Claim theorems -/

/-- C1 counterexample: the original claim says that across every sequence
of `verificar_e_enviar_ofertas` steps no affiliate link that was ever
successfully sent is sent a second time.  With MAX_CACHE_SIZE = 1, the
affiliate link of offer a is sent in a first run, evicted from the cache by the
trim when offer b is sent, and sent a second time in the next run. -/
theorem C1_counterexample :
    linkA ∈ (verificar_e_enviar_ofertas cfg0 12 oc1 uj0 (fun _ => true) []).enviados ∧
    linkA ∈ (verificar_e_enviar_ofertas cfg0 12 oc2 uj0 (fun _ => true)
      (verificar_e_enviar_ofertas cfg0 12 oc1 uj0 (fun _ => true) []).cache).enviados := by
  decide

/-- C1 (amended): for every product whose affiliate link is a member of
ENVIADOS_CACHE, both extraction functions and `buscar_produtos` exclude
it from their result, so a single `verificar_e_enviar_ofertas` step never
sends a link that is in the cache when the step starts; re-sends across a
sequence of steps are possible only for links the MAX_CACHE_SIZE trim has
evicted. -/
theorem C1_no_resend_while_cached :
    (∀ (cfg : Config) (cache : List String) (uj : String → String → String)
      (base_url : String) (tags : List DivTag) (p : Produto),
      p ∈ extrair_dados_divulgadorinteligente cfg cache uj base_url tags → p.link ∉ cache) ∧
    (∀ (cfg : Config) (cache : List String) (uj : String → String → String)
      (base_url : String) (cards : List PromoCard) (p : Produto),
      p ∈ extrair_dados_promohub cfg cache uj base_url cards → p.link ∉ cache) ∧
    (∀ (cfg : Config) (cache : List String) (uj : String → String → String)
      (oc : FetchOutcomes) (p : Produto),
      p ∈ buscar_produtos cfg cache uj oc → p.link ∉ cache) ∧
    (∀ (cfg : Config) (hour : Int) (oc : FetchOutcomes)
      (uj : String → String → String) (sendOk : Produto → Bool)
      (cache : List String) (l : String),
      l ∈ (verificar_e_enviar_ofertas cfg hour oc uj sendOk cache).enviados → l ∉ cache) :=
  ⟨fun cfg cache uj b tags p h => extrair_div_link_not_cached cfg cache uj b tags p h,
   fun cfg cache uj b cards p h => extrair_promo_link_not_cached cfg cache uj b cards p h,
   fun cfg cache uj oc p h => buscar_link_not_cached cfg cache uj oc p h,
   fun cfg hour oc uj s cache l h => verificar_enviados_not_cached cfg hour oc uj s cache l h⟩

/-- C1 witness: the amended theorem applied to a concrete run whose
cache holds an unrelated link. -/
theorem C1_witness : linkA ∉ (["https://outra.com/x"] : List String) :=
  C1_no_resend_while_cached.2.2.2 cfg0 12 oc2 uj0 (fun _ => true)
    ["https://outra.com/x"] linkA (by decide)

/-- C2: after every completed add-then-trim block of
`verificar_e_enviar_ofertas`, the size of ENVIADOS_CACHE is at most
MAX_CACHE_SIZE, for every MAX_CACHE_SIZE ≥ 1 and every starting cache
contents; consequently a send loop started from a bounded cache keeps it
bounded. -/
theorem C2_cache_bounded (m : Nat) (hm : 1 ≤ m) :
    (∀ (cache : List String) (link : String),
      (add_then_trim m cache link).length ≤ m) ∧
    (∀ (sendOk : Produto → Bool) (ps : List Produto) (cache : List String),
      cache.length ≤ m → ((enviar_loop m sendOk ps cache).1).length ≤ m) :=
  ⟨fun cache link => add_then_trim_length m cache link,
   fun sendOk ps cache h => enviar_loop_cache_length m sendOk ps cache h⟩

/-- C2 witness: the bound evaluated at MAX_CACHE_SIZE = 1 and a cache
already holding two links. -/
theorem C2_witness : (add_then_trim 1 ["a", "b"] "c").length ≤ 1 :=
  (C2_cache_bounded 1 (by decide)).1 ["a", "b"] "c"

/-- C3: in the send loop of `verificar_e_enviar_ofertas`, a failed send
leaves ENVIADOS_CACHE unchanged for that product; on a successful send
the add is executed — the set right after `ENVIADOS_CACHE.add` holds
exactly the old links plus the affiliate link of the product — and the
product is counted as sent, while the subsequent trim only ever removes
links and introduces no link other than the sent one; a round in which
every send fails leaves the cache untouched.  Every conjunct is
independent of the CPython set iteration order. -/
theorem C3_cache_records_sent (m : Nat) (sendOk : Produto → Bool)
    (p : Produto) (rest : List Produto) (cache : List String) :
    (sendOk p = false →
      enviar_loop m sendOk (p :: rest) cache = enviar_loop m sendOk rest cache) ∧
    (sendOk p = true →
      (∀ l, l ∈ cache_add cache p.link ↔ l ∈ cache ∨ l = p.link) ∧
      (enviar_loop m sendOk (p :: rest) cache).2 =
        p.link :: (enviar_loop m sendOk rest (add_then_trim m cache p.link)).2) ∧
    (∀ l, l ∈ add_then_trim m cache p.link → l ∈ cache_add cache p.link) ∧
    (∀ l, l ∈ add_then_trim m cache p.link → l ∈ cache ∨ l = p.link) ∧
    ((∀ q ∈ p :: rest, sendOk q = false) →
      (enviar_loop m sendOk (p :: rest) cache).1 = cache) := by
  refine ⟨fun hf => ?_, fun hs => ⟨fun l => mem_cache_add cache p.link l, ?_⟩,
    fun l hl => ?_, fun l hl => ?_, fun hall => ?_⟩
  · simp [enviar_loop, hf]
  · simp [enviar_loop, hs]
  · exact (mem_cache_add cache p.link l).mpr (mem_add_then_trim m cache p.link l hl)
  · exact mem_add_then_trim m cache p.link l hl
  · rw [enviar_loop_all_fail m sendOk (p :: rest) cache hall]

/-- C3 witness: a successful send of a concrete product from the empty
cache executes the add — the post-add set holds exactly that affiliate
link — and the product is reported as sent. -/
theorem C3_witness :
    (∀ l, l ∈ cache_add [] prod0.link ↔ l ∈ ([] : List String) ∨ l = prod0.link) ∧
    (enviar_loop 1 (fun _ => true) [prod0] []).2 =
      prod0.link :: (enviar_loop 1 (fun _ => true) [] (add_then_trim 1 [] prod0.link)).2 :=
  (C3_cache_records_sent 1 (fun _ => true) prod0 [] []).2.1 rfl

theorem falsy_some_eq_false (s : String) (h : s ≠ "") : falsy (some s) = false := by
  simp only [falsy, Bool.eq_false_iff, ne_eq, String.isEmpty_iff]
  exact h

/-- C4: for every non-empty link with origin "Amazon" and a non-empty
AMAZON_AFILIADO_ID, `converter_link_afiliado` returns the link unchanged
when it already contains "tag=", and otherwise appends
"&tag=<AMAZON_AFILIADO_ID>" when the link contains "?" and
"?tag=<AMAZON_AFILIADO_ID>" when it does not. -/
theorem C4_amazon_affiliate (cfg : Config) (l aid : String) (hl : l ≠ "")
    (ha : cfg.amazonId = some aid) (ha' : aid ≠ "") :
    (containsSub l "tag=" = true →
      converter_link_afiliado cfg (some l) "Amazon" = some l) ∧
    (containsSub l "tag=" = false → containsSub l "?" = true →
      converter_link_afiliado cfg (some l) "Amazon" = some (l ++ "&tag=" ++ aid)) ∧
    (containsSub l "tag=" = false → containsSub l "?" = false →
      converter_link_afiliado cfg (some l) "Amazon" = some (l ++ "?tag=" ++ aid)) := by
  have hf := falsy_some_eq_false l hl
  have haid := falsy_some_eq_false aid ha'
  have hfa : falsy cfg.amazonId = false := by
    rw [ha]
    exact haid
  have happ : ∀ sep sepTag : String, sep ++ "tag=" = sepTag →
      l ++ sep ++ "tag=" ++ aid = l ++ sepTag ++ aid := by
    intro sep sepTag h
    rw [String.append_assoc l sep, h]
  refine ⟨fun htag => ?_, fun htag hq => ?_, fun htag hq => ?_⟩
  · simp [converter_link_afiliado, hf, hfa, htag]
  · simp only [converter_link_afiliado, hf, hfa, htag, hq, ha, haid, Bool.false_eq_true,
      if_false, if_true, if_pos rfl, Option.getD_some, Option.some.injEq]
    exact happ "&" "&tag=" (by decide)
  · simp only [converter_link_afiliado, hf, hfa, htag, hq, ha, haid, Bool.false_eq_true,
      if_false, if_true, if_pos rfl, Option.getD_some, Option.some.injEq]
    exact happ "?" "?tag=" (by decide)

/-- C5: if fetching or parsing one entry of URLS_FONTE raises (timeout,
request error or any other exception), `buscar_produtos` behaves exactly
as if that source had yielded no offers: the offers of the other source are
kept, and every returned offer passes the cache filter. -/
theorem C5_failure_isolation (cfg : Config) (cache : List String)
    (uj : String → String → String) (e : FetchErr) :
    (∀ promo, buscar_produtos cfg cache uj ⟨Except.error e, promo⟩ =
      buscar_produtos cfg cache uj ⟨Except.ok [], promo⟩) ∧
    (∀ div, buscar_produtos cfg cache uj ⟨div, Except.error e⟩ =
      buscar_produtos cfg cache uj ⟨div, Except.ok []⟩) ∧
    (∀ (oc : FetchOutcomes) (p : Produto),
      p ∈ buscar_produtos cfg cache uj oc → p.link ∉ cache) :=
  ⟨fun _ => rfl, fun _ => rfl,
   fun oc p h => buscar_link_not_cached cfg cache uj oc p h⟩

theorem carregar_lista_map_str (t : List String) :
    carregar_lista (t.map Json.str) = some t := by
  induction t with
  | nil => rfl
  | cons a t ih => simp [carregar_lista, ih]

/-- C7: the optional persistence mechanism the spec describes — a flat
JSON dump of the sent-offers set — round-trips: deserializing the
serialized ENVIADOS_CACHE recovers exactly the cache contents, so the
set survives a restart. -/
theorem C7_cache_json_roundtrip (cache : List String) :
    carregar_cache_json (salvar_cache_json cache) = some cache :=
  carregar_lista_map_str cache

/-- C8: for every current time whose hour is below HORARIO_INICIO_ENVIO
or at least HORARIO_FIM_ENVIO, `verificar_e_enviar_ofertas` returns
without fetching any source or sending any message, and ENVIADOS_CACHE
is unchanged. -/
theorem C8_hour_gate (cfg : Config) (hour : Int) (oc : FetchOutcomes)
    (uj : String → String → String) (sendOk : Produto → Bool)
    (cache : List String)
    (h : hour < cfg.horarioInicio ∨ cfg.horarioFim ≤ hour) :
    verificar_e_enviar_ofertas cfg hour oc uj sendOk cache =
      { cache := cache, enviados := [], buscou := false } := by
  unfold verificar_e_enviar_ofertas
  rw [if_pos]
  intro hc
  rcases h with h | h <;> omega

/-- C8 witness: one hour before the window opens, nothing is fetched,
nothing is sent and the cache is untouched. -/
theorem C8_witness :
    verificar_e_enviar_ofertas cfg0 (-1) oc1 uj0 (fun _ => true) ["x"] =
      { cache := ["x"], enviados := [], buscou := false } :=
  C8_hour_gate cfg0 (-1) oc1 uj0 (fun _ => true) ["x"] (Or.inl (by decide))

/-- C4 witness: the Amazon conversion applied to a concrete link without
"tag=" and without "?". -/
theorem C4_witness :
    converter_link_afiliado cfg0 (some "https://amazon.com.br/a") "Amazon" =
      some ("https://amazon.com.br/a" ++ "?tag=" ++ "maxx0448-20") :=
  (C4_amazon_affiliate cfg0 "https://amazon.com.br/a" "maxx0448-20"
      (by decide) rfl (by decide)).2.2 (by decide) (by decide)

/-- C5 witness: the cache filter applied to a concrete fetch in which
one source succeeded. -/
theorem C5_witness : prodA.link ∉ (["https://outra.com/x"] : List String) :=
  (C5_failure_isolation cfg0 ["https://outra.com/x"] uj0 FetchErr.timeout).2.2
    oc2 prodA (by decide)

/-- C9: `identificar_origem` always returns one of the five strings
"Desconhecida", "Shopee", "Mercado Livre", "Amazon", "Outra"; it returns
"Desconhecida" exactly on an empty or missing link, and otherwise
classifies by case-insensitive substring match, testing "shopee.com"
before "mercadolivre.com" before "amazon.com", with "Outra" when none
match. -/
theorem C9_identificar_origem_spec (link : Option String) :
    identificar_origem link ∈
      (["Desconhecida", "Shopee", "Mercado Livre", "Amazon", "Outra"] : List String) ∧
    (identificar_origem link = "Desconhecida" ↔ falsy link = true) ∧
    (∀ s : String, link = some s → falsy (some s) = false →
      (containsSub (strLower s) "shopee.com" = true →
        identificar_origem link = "Shopee") ∧
      (containsSub (strLower s) "shopee.com" = false →
        containsSub (strLower s) "mercadolivre.com" = true →
        identificar_origem link = "Mercado Livre") ∧
      (containsSub (strLower s) "shopee.com" = false →
        containsSub (strLower s) "mercadolivre.com" = false →
        containsSub (strLower s) "amazon.com" = true →
        identificar_origem link = "Amazon") ∧
      (containsSub (strLower s) "shopee.com" = false →
        containsSub (strLower s) "mercadolivre.com" = false →
        containsSub (strLower s) "amazon.com" = false →
        identificar_origem link = "Outra")) := by
  refine ⟨?_, ?_, ?_⟩
  · unfold identificar_origem
    dsimp only
    split_ifs <;> simp
  · unfold identificar_origem
    dsimp only
    split_ifs <;> simp_all
  · rintro s rfl hfs
    refine ⟨fun h1 => ?_, fun h1 h2 => ?_, fun h1 h2 h3 => ?_, fun h1 h2 h3 => ?_⟩ <;>
      simp [identificar_origem, hfs, h1, *]

/-- C9 witness: the classifier applied to a concrete mixed-case Shopee
link that also mentions amazon.com. -/
theorem C9_witness :
    identificar_origem (some "https://ShopEE.com/amazon.com") = "Shopee" :=
  ((C9_identificar_origem_spec (some "https://ShopEE.com/amazon.com")).2.2
    "https://ShopEE.com/amazon.com" rfl (by decide)).1 (by decide)

/-- C10: `converter_link_afiliado` returns `None` exactly on an empty or
missing link; for every non-empty link whose origin is neither "Amazon"
nor "Shopee" (including "Mercado Livre" and unknown origins), it returns
the input link unchanged. -/
theorem C10_converter_default (cfg : Config) (link : Option String)
    (origem : String) :
    (converter_link_afiliado cfg link origem = none ↔ falsy link = true) ∧
    (∀ s : String, link = some s → falsy (some s) = false →
      origem ≠ "Amazon" → origem ≠ "Shopee" →
      converter_link_afiliado cfg link origem = some s) := by
  constructor
  · unfold converter_link_afiliado
    dsimp only
    split_ifs <;> simp_all
  · rintro s rfl hfs ho1 ho2
    simp [converter_link_afiliado, hfs, ho1, ho2]

/-- C10 witness: a concrete Mercado Livre link is returned unchanged. -/
theorem C10_witness :
    converter_link_afiliado cfg0 (some "https://mercadolivre.com/x")
      "Mercado Livre" = some "https://mercadolivre.com/x" :=
  (C10_converter_default cfg0 (some "https://mercadolivre.com/x")
    "Mercado Livre").2 "https://mercadolivre.com/x" rfl (by decide)
    (by decide) (by decide)

/-- C6 counterexample: the original claim says the standalone check
script exits with status 1 if and only if at least one of its four
listed variables is unset; in `env0` all four variables are set
(TELEGRAM_TOKEN to the empty string), yet the script exits with status 1
because its per-variable test is Python truthiness, not presence. -/
theorem C6_counterexample :
    verificar_env_exit env0 = 1 ∧
    variaveis.all (fun v => (env0 v).isSome) = true := by
  decide

/-- C6 (amended): `get_env_variable` raises ValueError exactly when the
variable is unset with no default while required, and otherwise returns
the environment value or the default; `get_env_var` raises exactly when
the variable is unset, and otherwise returns its value; the standalone
check script exits with status 1 exactly when at least one of its four
listed variables is unset or set to the empty string, and with status 0
otherwise. -/
theorem C6_env_lookup (env : String → Option String) :
    (∀ (name : String) (d : Option String) (r : Bool),
      (∃ msg, get_env_variable env name d r = Except.error msg) ↔
        (r = true ∧ env name = none ∧ d = none)) ∧
    (∀ (name : String) (d : Option String) (r : Bool),
      ¬ (r = true ∧ env name = none ∧ d = none) →
      get_env_variable env name d r = Except.ok (os_getenv env name d)) ∧
    (∀ name : String,
      (∃ msg, get_env_var env name = Except.error msg) ↔ env name = none) ∧
    (∀ (name v : String), env name = some v →
      get_env_var env name = Except.ok v) ∧
    (verificar_env_exit env = 1 ↔ ∃ v ∈ variaveis, truthyEnv env v = false) ∧
    (verificar_env_exit env = 0 ↔ ∀ v ∈ variaveis, truthyEnv env v = true) := by
  refine ⟨?_, ?_, ?_, ?_, ?_, ?_⟩
  · intro name d r
    cases r <;> cases hd : d <;> cases he : env name <;>
      simp [get_env_variable, os_getenv, he]
  · intro name d r h
    cases r <;> cases hd : d <;> cases he : env name <;>
      simp_all [get_env_variable, os_getenv, he]
  · intro name
    cases he : env name <;> simp [get_env_var, he]
  · intro name v he
    simp [get_env_var, he]
  · unfold verificar_env_exit
    split <;> rename_i h <;> simp_all [List.any_eq_true, Bool.not_eq_true']
  · unfold verificar_env_exit
    split <;> rename_i h <;> simp_all [List.any_eq_true, Bool.not_eq_true']

/-- C6 witness: the amended characterization applied to the empty
environment: `get_env_var` fails on TELEGRAM_TOKEN and the check script
exits with status 1. -/
theorem C6_witness :
    (∃ msg, get_env_var envEmpty "TELEGRAM_TOKEN" = Except.error msg) ∧
    verificar_env_exit envEmpty = 1 :=
  ⟨((C6_env_lookup envEmpty).2.2.1 "TELEGRAM_TOKEN").mpr rfl,
   ((C6_env_lookup envEmpty).2.2.2.2.1).mpr ⟨"TELEGRAM_TOKEN", by decide, rfl⟩⟩
